/-
  Verification of the reCAPTCHA v3 token-acquisition handshake
  (src/src/captcha_solver.py and src/src/http_client.py).

  The Python source is shallowly embedded: strings are lists of
  characters, byte strings are lists of naturals, the regex patterns of
  the solver (all of the shape literal-prefix / lazy capture / literal
  terminator, plus one alternation pattern for the API type) are
  embedded as dedicated matchers with the leftmost-match semantics of
  re.search, and the HTTP transport is a pure function from requests to
  response texts so that solve_captcha can be studied as a function
  producing a request trace together with a result.
-/
import Mathlib

set_option maxRecDepth 4000

/-- Convert a string literal to the list of its characters. Used to keep
concrete texts readable. -/
def s2l (s : String) : List Char := s.data

/-- The apostrophe character, written by code point to keep literals plain. -/
def sqChar : Char := Char.ofNat 39

/-- The newline character; a lazy regex dot does not match it. -/
def nlChar : Char := Char.ofNat 10

/-- The base64 padding character. -/
def padChar : Char := Char.ofNat 61

/-- Test whether the first list is a prefix of the second. -/
def startsWith : List Char → List Char → Bool
  | [], _ => true
  | _ :: _, [] => false
  | a :: as, b :: bs => a == b && startsWith as bs

/-- A regex alternative of the shape prefix-literal, lazy capture group,
terminator character, as in the patterns of captcha_solver.py such as
the render form of the sitekey pattern. -/
structure LazyPat where
  pre : List Char
  term : Char
deriving DecidableEq

/-- Attempt a LazyPat at the start of the given suffix of the text: the
prefix must be present, the capture runs lazily up to the first
terminator, and may not cross a newline (the dot of the Python regex
does not match newlines). Returns the captured characters. -/
def matchLazyAt (p : LazyPat) (s : List Char) : Option (List Char) :=
  if startsWith p.pre s then
    let rest := s.drop p.pre.length
    let cap := rest.takeWhile (fun c => c != p.term)
    if cap.length < rest.length ∧ nlChar ∉ cap then some cap else none
  else none

/-- Try a list of alternatives, in order, at one position of the text;
returns the zero-based index of the alternative that matched together
with its capture. This models the alternation order of a single regex
with several branches at a fixed position. -/
def altsAt : List LazyPat → List Char → Option (Nat × List Char)
  | [], _ => none
  | p :: ps, s =>
    match matchLazyAt p s with
    | some cap => some (0, cap)
    | none => (altsAt ps s).map (fun r => (r.1 + 1, r.2))

/-- Leftmost search of re.search: apply the position matcher at every
suffix of the text from the left and keep the first success. -/
def reSearch {α : Type} (m : List Char → Option α) : List Char → Option α
  | [] => m []
  | s@(_ :: t) =>
    match m s with
    | some r => some r
    | none => reSearch m t

/-- Capture of group j of a match in which alternative i (zero-based)
matched with capture cap: groups of the other alternatives are unset. -/
def groupOf (i : Nat) (cap : List Char) (j : Nat) : Option (List Char) :=
  if j = i + 1 then some cap else none

/-- Result of the _extract_data helper: a non-empty capture, a silent
absence, or an uncaught IndexError from reading a group past the number
of groups of the pattern. -/
inductive ExtractResult where
  | found (s : List Char)
  | absent
  | indexError
deriving DecidableEq

/-- One step of the or-chain match[1] or match[2] or match[3] or None of
_extract_data: reading group j of a match raises IndexError when j
exceeds the number of groups; an unset or empty group falls through to
the rest of the chain; a non-empty capture is returned. -/
def orStep (ngroups : Nat) (grp : Nat → Option (List Char)) (j : Nat)
    (rest : ExtractResult) : ExtractResult :=
  if j ≤ ngroups then
    match grp j with
    | none => rest
    | some c => if c = [] then rest else ExtractResult.found c
  else ExtractResult.indexError

/-- The full or-chain of _extract_data over groups 1, 2 and 3. -/
def orChain3 (ngroups : Nat) (grp : Nat → Option (List Char)) : ExtractResult :=
  orStep ngroups grp 1 (orStep ngroups grp 2 (orStep ngroups grp 3 ExtractResult.absent))

/-- The extraction core of CaptchaSolver._extract_data applied to an
already fetched text: re.search with leftmost semantics over the
alternatives, then the or-chain over groups 1, 2, 3. The number of
groups of the compiled pattern is the number of alternatives. -/
def extract_data (pats : List LazyPat) (text : List Char) : ExtractResult :=
  match reSearch (altsAt pats) text with
  | none => ExtractResult.absent
  | some ic => orChain3 pats.length (groupOf ic.1 ic.2)

/-- The three alternatives of the sitekey pattern of _get_sitekey:
render form, execute form, HTML-entity-escaped form. -/
def sitekeyPats : List LazyPat :=
  [LazyPat.mk (s2l "render=") sqChar,
   LazyPat.mk (s2l "execute(" ++ [sqChar]) sqChar,
   LazyPat.mk (s2l "&#x27;") (Char.ofNat 38)]

/-- The single-alternative pattern of _get_page_action. -/
def pageActionPats : List LazyPat :=
  [LazyPat.mk (s2l "action: " ++ [sqChar]) sqChar]

/-- The single-alternative pattern of _get_anchor_token. -/
def anchorPats : List LazyPat :=
  [LazyPat.mk (s2l "recaptcha-token\x22 value=\x22") (Char.ofNat 34)]

/-- CaptchaSolver._get_sitekey on a fetched text. -/
def get_sitekey (text : List Char) : ExtractResult :=
  extract_data sitekeyPats text

/-- Position matcher of the API-type pattern of _get_api_type: the
literal /recaptcha/ followed by the group alternation api or enterprise
followed by a literal dot; alternation order tries api first. -/
def apiAt (s : List Char) : Option (Nat × List Char) :=
  if startsWith (s2l "/recaptcha/api.") s then some (0, s2l "api")
  else if startsWith (s2l "/recaptcha/enterprise.") s then some (0, s2l "enterprise")
  else none

/-- The extraction part of _get_api_type: one capture group. -/
def extract_api (text : List Char) : ExtractResult :=
  match reSearch apiAt text with
  | none => ExtractResult.absent
  | some ic => orChain3 1 (groupOf ic.1 ic.2)

/-- CaptchaSolver._get_api_type on a fetched text: the extracted value
is compared with the literal api; every other value, including the
absent case, yields the literal enterprise. -/
def get_api_type (text : List Char) : List Char :=
  match extract_api text with
  | ExtractResult.found c => if c = s2l "api" then s2l "api2" else s2l "enterprise"
  | _ => s2l "enterprise"

/-- Scheme component of urllib.parse.urlparse for an absolute URL with a
lowercase scheme followed by colon-slash-slash. -/
def urlparse_scheme (s : List Char) : List Char :=
  s.takeWhile (fun c => c != Char.ofNat 58)

/-- Netloc component of urllib.parse.urlparse for an absolute URL: the
characters after the colon-slash-slash separator up to the first slash,
question mark or hash; an explicit port stays inside the netloc. -/
def urlparse_netloc (s : List Char) : List Char :=
  ((s.dropWhile (fun c => c != Char.ofNat 58)).drop 3).takeWhile
    (fun c => c != Char.ofNat 47 && c != Char.ofNat 63 && c != Char.ofNat 35)

/-- CaptchaSolver._construct_url with an explicit port argument. -/
def construct_url_port (base port : List Char) : List Char :=
  urlparse_scheme base ++ s2l "://" ++ urlparse_netloc base ++ s2l ":" ++ port

/-- CaptchaSolver._construct_url at its default port 443. -/
def construct_url (base : List Char) : List Char :=
  construct_url_port base (s2l "443")

/-- UTF-8 bytes of an origin string; all origins here are ASCII, where
UTF-8 is the identity on code points. -/
def strBytes (s : List Char) : List Nat := s.map Char.toNat

/-- The base64 alphabet of the standard encoding. -/
def b64alphabet : List Char :=
  s2l "ABCDEFGHIJKLMNOPQRSTUVWXYZabcdefghijklmnopqrstuvwxyz0123456789+/"

/-- Character of the base64 alphabet at a six-bit index. -/
def b64char (n : Nat) : Char :=
  if h : n < b64alphabet.length then b64alphabet.get ⟨n, h⟩ else Char.ofNat 65

/-- Standard base64 of a byte list, as base64.b64encode: full three-byte
chunks produce four alphabet characters, a trailing two-byte chunk
produces three characters and one padding character, a trailing single
byte produces two characters and two padding characters. -/
def b64encode : List Nat → List Char
  | [] => []
  | [a] => [b64char (a / 4), b64char (a % 4 * 16), padChar, padChar]
  | [a, b] => [b64char (a / 4), b64char (a % 4 * 16 + b / 16), b64char (b % 16 * 4), padChar]
  | a :: b :: c :: rest =>
    b64char (a / 4) :: b64char (a % 4 * 16 + b / 16) ::
      b64char (b % 16 * 4 + c / 64) :: b64char (c % 64) :: b64encode rest

/-- Python str.rstrip at the padding character: remove every trailing
occurrence. -/
def rstripEq (l : List Char) : List Char :=
  (l.reverse.dropWhile (fun c => c == padChar)).reverse

/-- CaptchaSolver._encode_co on the bytes of the constructed URL: strip
the trailing padding of the raw base64 and append one dot per stripped
character. -/
def encode_co (bs : List Nat) : List Char :=
  rstripEq (b64encode bs) ++
    List.replicate ((b64encode bs).length - (rstripEq (b64encode bs)).length) (Char.ofNat 46)

/-- The fixed challenge host CAPTCHA_URL of CaptchaSolver. -/
def CAPTCHA_URL : List Char := s2l "https://www.google.com/recaptcha"

/-- CaptchaSolver._construct_anchor. -/
def construct_anchor (sitekey co_value api_type : List Char) : List Char :=
  CAPTCHA_URL ++ s2l "/" ++ api_type ++ s2l "/anchor?ar=1&k=" ++ sitekey ++
    s2l "&co=" ++ co_value ++ s2l "&hl=en&size=invisible"

/-- Python str formatting of an optional value inside an f-string: an
absent value prints as the four letters None. -/
def pyStr (o : Option (List Char)) : List Char :=
  match o with
  | some s => s
  | none => s2l "None"

/-- CaptchaSolver._build_payload. -/
def build_payload (anchor_token : Option (List Char)) (co_value sitekey : List Char) : List Char :=
  s2l "reason=q&c=" ++ pyStr anchor_token ++ s2l "&k=" ++ sitekey ++ s2l "&co=" ++ co_value

/-- URL of the reload endpoint used by _get_captcha_token. -/
def reload_url (api_type : List Char) : List Char :=
  CAPTCHA_URL ++ s2l "/" ++ api_type ++ s2l "/reload"

/-- The rresp pattern of _get_captcha_token. -/
def rrespPat : LazyPat := LazyPat.mk (s2l "\x22rresp\x22,\x22") (Char.ofNat 34)

/-- Token extraction of _get_captcha_token: a plain re.search whose
first group is returned whenever the pattern matches, even when the
capture is empty. -/
def rresp_token (text : List Char) : Option (List Char) :=
  reSearch (matchLazyAt rrespPat) text

/-- An HTTP request issued through the HttpClient transport: a GET of a
URL, or the reload POST carrying the k query parameter and the
form-encoded body. -/
inductive Req where
  | get (url : List Char)
  | post (url : List Char) (kparam : List Char) (body : List Char)
deriving DecidableEq

/-- Outcome of solve_captcha: normal return of the captcha token and the
stored page action, a raised ValueError with its message, or an uncaught
IndexError escaping from _extract_data. -/
inductive SolveRes where
  | ok (captchaToken : Option (List Char)) (pageAction : Option (List Char))
  | err (msg : List Char)
  | indexError
deriving DecidableEq

/-- A run of solve_captcha: the ordered trace of issued requests and the
final outcome. -/
structure SolveOutcome where
  trace : List Req
  result : SolveRes
deriving DecidableEq

/-- View of an extraction result as the optional value _extract_data
returns when it does not raise. -/
def ExtractResult.toOpt : ExtractResult → Option (List Char)
  | ExtractResult.found s => some s
  | _ => none

/-- Final stage of solve_captcha: build the reload payload, POST to the
reload endpoint and extract the rresp token; a missing token is returned
as an absent value. -/
def solve_reload (base : List Char) (fetch : Req → List Char) (k : List Char)
    (act : Option (List Char)) (atok : Option (List Char))
    (api co aurl : List Char) : SolveOutcome :=
  SolveOutcome.mk
    [Req.get base, Req.get base, Req.get base, Req.get aurl,
     Req.post (reload_url api) k (build_payload atok co k)]
    (SolveRes.ok (rresp_token (fetch (Req.post (reload_url api) k (build_payload atok co k)))) act)

/-- Tail of solve_captcha after the sitekey and page-action extractions:
the third GET of the target page for the API type, the dead check of the
API type, the origin construction and encoding, the anchor GET, and the
reload POST. -/
def solve_tail (base : List Char) (fetch : Req → List Char) (k : List Char)
    (act : Option (List Char)) : SolveOutcome :=
  let api := get_api_type (fetch (Req.get base))
  if api = [] then
    SolveOutcome.mk [Req.get base, Req.get base, Req.get base]
      (SolveRes.err (s2l "API Type not found! Please check the response text from " ++ base))
  else
    let co := encode_co (strBytes (construct_url base))
    let aurl := construct_anchor k co api
    match extract_data anchorPats (fetch (Req.get aurl)) with
    | ExtractResult.indexError =>
      SolveOutcome.mk [Req.get base, Req.get base, Req.get base, Req.get aurl]
        SolveRes.indexError
    | ExtractResult.absent => solve_reload base fetch k act none api co aurl
    | ExtractResult.found a => solve_reload base fetch k act (some a) api co aurl

/-- CaptchaSolver.solve_captcha over a pure transport: each call of
_extract_data performs its own GET; a missing sitekey raises at once, a
missing page action or anchor token is tolerated, the API type is never
reported missing, and the captcha token is returned as an optional
value. -/
def solve_captcha (base : List Char) (fetch : Req → List Char) : SolveOutcome :=
  match extract_data sitekeyPats (fetch (Req.get base)) with
  | ExtractResult.indexError => SolveOutcome.mk [Req.get base] SolveRes.indexError
  | ExtractResult.absent =>
    SolveOutcome.mk [Req.get base] (SolveRes.err (s2l "Sitekey not found!"))
  | ExtractResult.found k =>
    match extract_data pageActionPats (fetch (Req.get base)) with
    | ExtractResult.indexError =>
      SolveOutcome.mk [Req.get base, Req.get base] SolveRes.indexError
    | ExtractResult.absent => solve_tail base fetch k none
    | ExtractResult.found a => solve_tail base fetch k (some a)

/-- Stream model of the random module: an infinite sequence of draws and
a cursor for the next draw. -/
structure RandState where
  draws : Nat → ℚ
  next : Nat

/-- Drawing random.uniform once: the draw under the cursor, advancing
the cursor. -/
def uniform_draw (r : RandState) : ℚ × RandState :=
  (r.draws r.next, RandState.mk r.draws (r.next + 1))

/-- The http_client module after import: Python evaluates the default
argument uniform(10, 15) of HttpClient.__init__ exactly once, when the
def statement runs, and stores the resulting value with the function. -/
structure HttpClientModule where
  default_timeout : ℚ

/-- Importing src/src/http_client.py: the single def-time draw. -/
def import_http_client (r : RandState) : HttpClientModule × RandState :=
  (HttpClientModule.mk (uniform_draw r).1, (uniform_draw r).2)

/-- HttpClient.__init__ restricted to its timeout plumbing: an explicit
timeout argument is used as given; with no argument the stored def-time
default is used, and no new draw is made. -/
def http_client_init (m : HttpClientModule) (timeout : Option ℚ) (r : RandState) :
    ℚ × RandState :=
  match timeout with
  | some t => (t, r)
  | none => (m.default_timeout, r)

/-- Concrete target URL for the end-to-end scenario. -/
def baseC1 : List Char := s2l "https://example.com/page"

/-- Concrete target page carrying a render-form sitekey, an action label
and a standard API marker. -/
def pageC1 : List Char :=
  s2l "render=KEY" ++ [sqChar] ++ s2l " action: " ++ [sqChar] ++ s2l "login" ++ [sqChar] ++
    s2l " src=/recaptcha/api.js"

/-- Concrete anchor response carrying a recaptcha token attribute. -/
def anchorRespC1 : List Char := s2l "recaptcha-token\x22 value=\x22TOK\x22 more"

/-- Concrete reload response carrying an rresp value. -/
def reloadRespC1 : List Char := s2l "[\x22rresp\x22,\x22FINAL\x22]"

/-- Concrete transport of the end-to-end scenario. -/
def fetchC1 : Req → List Char := fun r =>
  match r with
  | Req.get u => if u = baseC1 then pageC1 else anchorRespC1
  | Req.post _ _ _ => reloadRespC1

/-- Concrete target URL for the missing-API-marker scenario. -/
def baseC2 : List Char := s2l "https://example.net/x"

/-- Concrete target page with a sitekey but neither API marker. -/
def pageC2 : List Char := s2l "render=KEY" ++ [sqChar] ++ s2l " but no marker"

/-- Concrete transport of the missing-API-marker scenario. -/
def fetchC2 : Req → List Char := fun r =>
  match r with
  | Req.get u => if u = baseC2 then pageC2 else s2l "blank"
  | Req.post _ _ _ => s2l "blank"

/-- Concrete target URL for the silent-degradation scenario. -/
def baseC8 : List Char := s2l "https://example.org/demo"

/-- Concrete target page with a sitekey and an API marker but no action
label. -/
def pageC8 : List Char := s2l "render=KEY" ++ [sqChar] ++ s2l " uses /recaptcha/api.js"

/-- Concrete transport of the silent-degradation scenario: the anchor
and reload responses contain none of the expected markers. -/
def fetchC8 : Req → List Char := fun r =>
  match r with
  | Req.get u => if u = baseC8 then pageC8 else s2l "empty"
  | Req.post _ _ _ => s2l "empty"

/-- Concrete random stream: 12 at the first draw, 13 afterwards. -/
def drawsC10 : Nat → ℚ := fun n => if n = 0 then 12 else 13

/-- The base64 alphabet never produces the padding character. -/
theorem b64char_ne_pad (n : Nat) : b64char n ≠ padChar := by
  unfold b64char
  by_cases h : n < b64alphabet.length
  · rw [dif_pos h]
    intro he
    have hm : padChar ∈ b64alphabet := he ▸ List.get_mem b64alphabet n h
    revert hm
    decide
  · rw [dif_neg h]
    decide

/-- Shape of a raw base64 encoding: a padding-free body followed by at
most two padding characters, the total length a multiple of four. -/
theorem b64encode_eq_body_pad (bs : List Nat) :
    ∃ body k, b64encode bs = body ++ List.replicate k padChar ∧ k ≤ 2 ∧
      (∀ c ∈ body, c ≠ padChar) ∧ (body.length + k) % 4 = 0 := by
  induction bs using b64encode.induct with
  | case1 =>
    refine ⟨[], 0, rfl, ?_, ?_, ?_⟩
    · omega
    · intro c hc
      cases hc
    · rfl
  | case2 a =>
    refine ⟨[b64char (a / 4), b64char (a % 4 * 16)], 2, rfl, ?_, ?_, ?_⟩
    · omega
    · intro c hc
      simp only [List.mem_cons, List.not_mem_nil, or_false] at hc
      rcases hc with h | h <;> exact h ▸ b64char_ne_pad _
    · simp
  | case3 a b =>
    refine ⟨[b64char (a / 4), b64char (a % 4 * 16 + b / 16), b64char (b % 16 * 4)], 1,
      rfl, ?_, ?_, ?_⟩
    · omega
    · intro c hc
      simp only [List.mem_cons, List.not_mem_nil, or_false] at hc
      rcases hc with h | h | h <;> exact h ▸ b64char_ne_pad _
    · simp
  | case4 a b c rest ih =>
    obtain ⟨body, k, heq, hk, hmem, hlen⟩ := ih
    refine ⟨b64char (a / 4) :: b64char (a % 4 * 16 + b / 16) ::
      b64char (b % 16 * 4 + c / 64) :: b64char (c % 64) :: body, k, ?_, hk, ?_, ?_⟩
    · simp [b64encode, heq]
    · intro x hx
      simp only [List.mem_cons] at hx
      rcases hx with h | h | h | h | h
      · exact h ▸ b64char_ne_pad _
      · exact h ▸ b64char_ne_pad _
      · exact h ▸ b64char_ne_pad _
      · exact h ▸ b64char_ne_pad _
      · exact hmem x h
    · simp only [List.length_cons]
      omega

/-- Dropping the padding predicate past a replicate of padding. -/
theorem dropWhile_pad_replicate (k : Nat) (l : List Char) :
    List.dropWhile (fun c => c == padChar) (List.replicate k padChar ++ l) =
      List.dropWhile (fun c => c == padChar) l := by
  induction k with
  | zero => rfl
  | succ n ih => simp [List.replicate_succ, List.dropWhile_cons, ih]

/-- Dropping the padding predicate over a padding-free list changes
nothing. -/
theorem dropWhile_pad_eq_self (l : List Char) (h : ∀ c ∈ l, c ≠ padChar) :
    List.dropWhile (fun c => c == padChar) l = l := by
  cases l with
  | nil => rfl
  | cons x xs =>
    have hx : x ≠ padChar := h x (List.mem_cons_self x xs)
    simp [List.dropWhile_cons, hx]

/-- Stripping trailing padding from a body-plus-padding list recovers
exactly the body. -/
theorem rstripEq_body_pad (body : List Char) (k : Nat) (h : ∀ c ∈ body, c ≠ padChar) :
    rstripEq (body ++ List.replicate k padChar) = body := by
  unfold rstripEq
  rw [List.reverse_append, List.reverse_replicate, dropWhile_pad_replicate,
    dropWhile_pad_eq_self _ (fun c hc => h c (List.mem_reverse.mp hc)), List.reverse_reverse]

/-- The API type computed by _get_api_type is never the empty string, so
the API-type check of solve_captcha can never fire. -/
theorem get_api_type_ne_nil (t : List Char) : get_api_type t ≠ [] := by
  unfold get_api_type
  cases extract_api t with
  | found c =>
    dsimp only
    split <;> decide
  | absent => decide
  | indexError => decide

/-- The alternative index reported by altsAt is a position in the
pattern list. -/
theorem altsAt_lt {pats : List LazyPat} {s : List Char} {i : Nat} {c : List Char}
    (h : altsAt pats s = some (i, c)) : i < pats.length := by
  induction pats generalizing i c with
  | nil => simp [altsAt] at h
  | cons p ps ih =>
    unfold altsAt at h
    cases hm : matchLazyAt p s with
    | some cap =>
      rw [hm] at h
      simp only [Option.some.injEq, Prod.mk.injEq] at h
      simp [← h.1]
    | none =>
      rw [hm] at h
      simp only [Option.map_eq_some'] at h
      obtain ⟨r, hr, he⟩ := h
      have hlt := ih hr
      simp only [Prod.mk.injEq] at he
      simp only [List.length_cons]
      omega

/-- The alternative index reported by a leftmost search is a position in
the pattern list. -/
theorem reSearch_altsAt_lt {pats : List LazyPat} {text : List Char} {i : Nat} {c : List Char}
    (h : reSearch (altsAt pats) text = some (i, c)) : i < pats.length := by
  induction text with
  | nil => exact altsAt_lt (by simpa [reSearch] using h)
  | cons x t ih =>
    unfold reSearch at h
    cases hm : altsAt pats (x :: t) with
    | some r =>
      rw [hm] at h
      simp only [Option.some.injEq] at h
      exact altsAt_lt (h ▸ hm)
    | none =>
      rw [hm] at h
      exact ih h

/-- C4: for every origin byte string, the raw base64 encoding produced
inside _encode_co has length a multiple of 4; the rstrip step removes
exactly the trailing padding characters, of which there are at most 2;
_encode_co appends exactly that many dot characters; and the encoded
result has the same total length as the raw padded encoding. -/
theorem encode_co_length_invariant (bs : List Nat) :
    (b64encode bs).length % 4 = 0 ∧
    (b64encode bs).length - (rstripEq (b64encode bs)).length ≤ 2 ∧
    b64encode bs = rstripEq (b64encode bs) ++
      List.replicate ((b64encode bs).length - (rstripEq (b64encode bs)).length) padChar ∧
    encode_co bs = rstripEq (b64encode bs) ++
      List.replicate ((b64encode bs).length - (rstripEq (b64encode bs)).length) (Char.ofNat 46) ∧
    (encode_co bs).length = (b64encode bs).length := by
  obtain ⟨body, k, heq, hk, hmem, hlen⟩ := b64encode_eq_body_pad bs
  have hr : rstripEq (b64encode bs) = body := by
    rw [heq]
    exact rstripEq_body_pad body k hmem
  have hlength : (b64encode bs).length = body.length + k := by
    rw [heq, List.length_append, List.length_replicate]
  have hdiff : (b64encode bs).length - (rstripEq (b64encode bs)).length = k := by
    rw [hr, hlength]
    omega
  refine ⟨?_, ?_, ?_, ?_, ?_⟩
  · omega
  · omega
  · rw [hdiff, hr, heq]
  · unfold encode_co
    rw [hdiff, hr]
  · unfold encode_co
    rw [hdiff, hr, List.length_append, List.length_replicate, hlength]

/-- C9: whenever the compiled pattern has fewer than three capture
groups and re.search matches with an empty first capture, the or-chain
of _extract_data reads a group index past the number of groups, so the
extraction raises IndexError instead of reporting an absent value. -/
theorem extract_data_index_error (pats : List LazyPat) (text : List Char) (i : Nat)
    (hlen : pats.length < 3)
    (h : reSearch (altsAt pats) text = some (i, ([] : List Char))) :
    extract_data pats text = ExtractResult.indexError := by
  have hlt : i < pats.length := reSearch_altsAt_lt h
  unfold extract_data
  rw [h]
  dsimp only
  have h12 : pats.length = 1 ∨ pats.length = 2 := by omega
  have hi : i = 0 ∨ i = 1 := by omega
  rcases h12 with h12 | h12 <;> rcases hi with hi | hi <;> subst hi <;> rw [h12]
  · decide
  · exfalso
    omega
  · decide
  · decide

/-- Witness for C9: a page whose action assignment is the empty string
makes the page-action extraction raise IndexError. -/
theorem extract_data_index_error_witness :
    extract_data pageActionPats (s2l "action: " ++ [sqChar, sqChar]) =
      ExtractResult.indexError :=
  extract_data_index_error pageActionPats (s2l "action: " ++ [sqChar, sqChar]) 0
    (by decide) (by decide)

/-- C7: when sitekey extraction over the fetched target page reports an
absent value, solve_captcha raises the Sitekey-not-found error at once,
with only the single target GET issued and no further handshake step. -/
theorem solve_captcha_missing_sitekey (base : List Char) (fetch : Req → List Char)
    (h : extract_data sitekeyPats (fetch (Req.get base)) = ExtractResult.absent) :
    solve_captcha base fetch =
      SolveOutcome.mk [Req.get base] (SolveRes.err (s2l "Sitekey not found!")) := by
  unfold solve_captcha
  rw [h]

/-- Witness for C7 at a concrete transport whose target page holds no
sitekey marker. -/
theorem solve_captcha_missing_sitekey_witness :
    solve_captcha (s2l "https://example.com/") (fun _ => s2l "empty page") =
      SolveOutcome.mk [Req.get (s2l "https://example.com/")]
        (SolveRes.err (s2l "Sitekey not found!")) :=
  solve_captcha_missing_sitekey (s2l "https://example.com/") (fun _ => s2l "empty page")
    (by decide)

/-- C1 (corrected): a successful resolution issues five requests, not
three: each of the three extractions over the target page performs its
own GET inside _extract_data, followed by the anchor GET and the reload
POST. -/
theorem solve_captcha_request_trace (base : List Char) (fetch : Req → List Char)
    (tok act : Option (List Char))
    (h : (solve_captcha base fetch).result = SolveRes.ok tok act) :
    ∃ k atok,
      extract_data sitekeyPats (fetch (Req.get base)) = ExtractResult.found k ∧
      (solve_captcha base fetch).trace =
        [Req.get base, Req.get base, Req.get base,
         Req.get (construct_anchor k (encode_co (strBytes (construct_url base)))
           (get_api_type (fetch (Req.get base)))),
         Req.post (reload_url (get_api_type (fetch (Req.get base)))) k
           (build_payload atok (encode_co (strBytes (construct_url base))) k)] := by
  unfold solve_captcha at h ⊢
  cases h1 : extract_data sitekeyPats (fetch (Req.get base)) with
  | indexError =>
    rw [h1] at h
    simp at h
  | absent =>
    rw [h1] at h
    simp at h
  | found k =>
    rw [h1] at h
    dsimp only at h ⊢
    cases h2 : extract_data pageActionPats (fetch (Req.get base)) with
    | indexError =>
      rw [h2] at h
      simp at h
    | absent =>
      rw [h2] at h
      dsimp only at h ⊢
      simp only [solve_tail] at h ⊢
      rw [if_neg (get_api_type_ne_nil (fetch (Req.get base)))] at h ⊢
      cases h3 : extract_data anchorPats (fetch (Req.get (construct_anchor k
          (encode_co (strBytes (construct_url base)))
          (get_api_type (fetch (Req.get base)))))) with
      | indexError =>
        rw [h3] at h
        simp at h
      | absent =>
        dsimp only [solve_reload]
        exact ⟨k, none, rfl, rfl⟩
      | found a2 =>
        dsimp only [solve_reload]
        exact ⟨k, some a2, rfl, rfl⟩
    | found a =>
      rw [h2] at h
      dsimp only at h ⊢
      simp only [solve_tail] at h ⊢
      rw [if_neg (get_api_type_ne_nil (fetch (Req.get base)))] at h ⊢
      cases h3 : extract_data anchorPats (fetch (Req.get (construct_anchor k
          (encode_co (strBytes (construct_url base)))
          (get_api_type (fetch (Req.get base)))))) with
      | indexError =>
        rw [h3] at h
        simp at h
      | absent =>
        dsimp only [solve_reload]
        exact ⟨k, none, rfl, rfl⟩
      | found a2 =>
        dsimp only [solve_reload]
        exact ⟨k, some a2, rfl, rfl⟩

/-- Witness for C1 (corrected): the concrete successful scenario issues
exactly five requests. -/
theorem solve_captcha_request_trace_witness :
    (solve_captcha baseC1 fetchC1).trace.length = 5 := by
  obtain ⟨k, atok, hk, htr⟩ := solve_captcha_request_trace baseC1 fetchC1
    (some (s2l "FINAL")) (some (s2l "login")) (by decide)
  rw [htr]
  rfl

/-- Counterexample for C1 as stated: a successful resolution whose trace
has five requests, not three, and whose first three requests are all
GETs of the target page, so the extractor does not reuse a single
fetched text. -/
theorem solve_captcha_five_requests_cex :
    (solve_captcha baseC1 fetchC1).result =
      SolveRes.ok (some (s2l "FINAL")) (some (s2l "login")) ∧
    (solve_captcha baseC1 fetchC1).trace.length = 5 ∧
    (solve_captcha baseC1 fetchC1).trace.length ≠ 3 ∧
    (solve_captcha baseC1 fetchC1).trace.take 3 =
      [Req.get baseC1, Req.get baseC1, Req.get baseC1] := by
  exact ⟨by decide, by decide, by decide, by decide⟩

/-- C2 (code bug): on a target page with a sitekey but neither API
marker, the extraction reports absent, yet _get_api_type maps the
missing value to the enterprise literal, so the resolution completes
without the documented API-Type-not-found error and builds its anchor
URL with the enterprise path segment. -/
theorem get_api_type_defaults_enterprise :
    extract_api pageC2 = ExtractResult.absent ∧
    get_api_type pageC2 = s2l "enterprise" ∧
    (solve_captcha baseC2 fetchC2).result = SolveRes.ok none none ∧
    (solve_captcha baseC2 fetchC2).trace.length = 5 ∧
    (solve_captcha baseC2 fetchC2).trace.get? 3 =
      some (Req.get (construct_anchor (s2l "KEY")
        (encode_co (strBytes (construct_url baseC2))) (s2l "enterprise"))) := by
  exact ⟨by decide, by decide, by decide, by decide, by decide⟩

/-- Counterexample for C3 as stated: a base URL with an explicit port
8080 yields an origin with a duplicated port, not scheme-host-443. -/
theorem construct_url_port_duplication_cex :
    construct_url (s2l "https://example.com:8080/page") =
      s2l "https://example.com:8080:443" ∧
    construct_url (s2l "https://example.com:8080/page") ≠
      s2l "https://example.com:443" := by
  exact ⟨by decide, by decide⟩

/-- C3 (amended): the derived origin is scheme://netloc:443 where the
parsed netloc keeps any explicit port of the page URL; a portless URL
yields scheme://host:443, and a URL with port 8080 yields
scheme://host:8080:443. -/
theorem construct_url_appends_port :
    construct_url (s2l "https://example.com/page") = s2l "https://example.com:443" ∧
    construct_url (s2l "https://example.com:8080/page") =
      urlparse_scheme (s2l "https://example.com:8080/page") ++ s2l "://" ++
        urlparse_netloc (s2l "https://example.com:8080/page") ++ s2l ":443" ∧
    construct_url (s2l "https://example.com:8080/page") =
      s2l "https://example.com:8080:443" := by
  exact ⟨by decide, by decide, by decide⟩

/-- Counterexample for C5 as stated: when an execute-call marker occurs
earlier in the text than a render-parameter marker, the execute capture
wins, although the render form is listed first in the pattern. -/
theorem get_sitekey_priority_cex :
    get_sitekey (s2l "execute(" ++ [sqChar] ++ s2l "ABC" ++ [sqChar] ++
        s2l " render=XYZ" ++ [sqChar]) = ExtractResult.found (s2l "ABC") ∧
    ExtractResult.found (s2l "ABC") ≠ ExtractResult.found (s2l "XYZ") := by
  exact ⟨by decide, by decide⟩

/-- C5 (amended): sitekey extraction returns the capture of the
alternative matching at the leftmost text position, alternation order
breaking ties at one position only: each of the render, execute and
escaped forms is extracted when alone, text with none of them yields
absent, and with an earlier execute marker the execute capture wins over
a later render marker. -/
theorem get_sitekey_leftmost_examples :
    get_sitekey (s2l "render=XYZ" ++ [sqChar]) = ExtractResult.found (s2l "XYZ") ∧
    get_sitekey (s2l "execute(" ++ [sqChar] ++ s2l "ABC" ++ [sqChar]) =
      ExtractResult.found (s2l "ABC") ∧
    get_sitekey (s2l "&#x27;QRS&") = ExtractResult.found (s2l "QRS") ∧
    get_sitekey (s2l "nothing here") = ExtractResult.absent ∧
    get_sitekey (s2l "execute(" ++ [sqChar] ++ s2l "ABC" ++ [sqChar] ++
      s2l " render=XYZ" ++ [sqChar]) = ExtractResult.found (s2l "ABC") := by
  exact ⟨by decide, by decide, by decide, by decide, by decide⟩

/-- C6: anchor URL construction for sitekey abc, encoded origin xyz. and
the standard API variant yields exactly the expected URL under the fixed
challenge host, the standard variant mapping to the api2 path segment
and the enterprise variant to enterprise. -/
theorem construct_anchor_exact :
    construct_anchor (s2l "abc") (s2l "xyz.") (get_api_type (s2l "uses /recaptcha/api.js")) =
      s2l "https://www.google.com/recaptcha/api2/anchor?ar=1&k=abc&co=xyz.&hl=en&size=invisible" ∧
    get_api_type (s2l "uses /recaptcha/api.js") = s2l "api2" ∧
    get_api_type (s2l "uses /recaptcha/enterprise.js") = s2l "enterprise" := by
  exact ⟨by decide, by decide, by decide⟩

/-- C8: when the sitekey is found but the page action, the anchor token
and the rresp field are all absent, solve_captcha does not raise: it
performs all five requests, including the reload POST with the literal
None in the payload, and returns an absent verification token. -/
theorem solve_captcha_silent_degradation (base : List Char) (fetch : Req → List Char)
    (k : List Char)
    (h1 : extract_data sitekeyPats (fetch (Req.get base)) = ExtractResult.found k)
    (h2 : extract_data pageActionPats (fetch (Req.get base)) = ExtractResult.absent)
    (h3 : extract_data anchorPats (fetch (Req.get (construct_anchor k
      (encode_co (strBytes (construct_url base)))
      (get_api_type (fetch (Req.get base)))))) = ExtractResult.absent)
    (h4 : rresp_token (fetch (Req.post
      (reload_url (get_api_type (fetch (Req.get base)))) k
      (build_payload none (encode_co (strBytes (construct_url base))) k))) = none) :
    (solve_captcha base fetch).result = SolveRes.ok none none ∧
    (solve_captcha base fetch).trace =
      [Req.get base, Req.get base, Req.get base,
       Req.get (construct_anchor k (encode_co (strBytes (construct_url base)))
         (get_api_type (fetch (Req.get base)))),
       Req.post (reload_url (get_api_type (fetch (Req.get base)))) k
         (build_payload none (encode_co (strBytes (construct_url base))) k)] := by
  unfold solve_captcha
  rw [h1]
  dsimp only
  rw [h2]
  simp only [solve_tail]
  rw [if_neg (get_api_type_ne_nil (fetch (Req.get base)))]
  rw [h3]
  dsimp only [solve_reload]
  rw [h4]
  exact ⟨rfl, rfl⟩

/-- Witness for C8 at a concrete transport: no action label, no anchor
token, no rresp, and still a completed five-request run returning an
absent token. -/
theorem solve_captcha_silent_degradation_witness :
    (solve_captcha baseC8 fetchC8).result = SolveRes.ok none none ∧
    (solve_captcha baseC8 fetchC8).trace.length = 5 := by
  obtain ⟨h1, h2⟩ := solve_captcha_silent_degradation baseC8 fetchC8 (s2l "KEY")
    (by decide) (by decide) (by decide) (by decide)
  refine ⟨h1, ?_⟩
  rw [h2]
  rfl

/-- Counterexample for C10 as stated: with the draw stream 12, 13, 13,
... both clients constructed without an explicit timeout receive 12, the
single value drawn at import before any client exists; no further draw
is consumed (the cursor stays at 1), and neither client receives the 13
an independent per-client draw would have produced. -/
theorem http_client_shared_timeout_cex :
    (http_client_init (import_http_client (RandState.mk drawsC10 0)).1 none
        (import_http_client (RandState.mk drawsC10 0)).2).1 = 12 ∧
    (http_client_init (import_http_client (RandState.mk drawsC10 0)).1 none
        (http_client_init (import_http_client (RandState.mk drawsC10 0)).1 none
          (import_http_client (RandState.mk drawsC10 0)).2).2).1 = 12 ∧
    (http_client_init (import_http_client (RandState.mk drawsC10 0)).1 none
        (http_client_init (import_http_client (RandState.mk drawsC10 0)).1 none
          (import_http_client (RandState.mk drawsC10 0)).2).2).2.next = 1 ∧
    drawsC10 1 = 13 ∧
    (12 : ℚ) ≠ 13 := by
  exact ⟨rfl, rfl, rfl, rfl, by norm_num⟩

/-- C10 (amended): the default timeout of HttpClient is drawn once, at
module import when the def statement is evaluated; every client
constructed without an explicit timeout shares that single value, which
lies between 10 and 15 whenever the draw does, and constructing clients
consumes no further draw. -/
theorem http_client_default_timeout_shared (d : Nat → ℚ)
    (h10 : 10 ≤ d 0) (h15 : d 0 ≤ 15) :
    (http_client_init (import_http_client (RandState.mk d 0)).1 none
        (import_http_client (RandState.mk d 0)).2).1 = d 0 ∧
    (http_client_init (import_http_client (RandState.mk d 0)).1 none
        (http_client_init (import_http_client (RandState.mk d 0)).1 none
          (import_http_client (RandState.mk d 0)).2).2).1 = d 0 ∧
    10 ≤ (http_client_init (import_http_client (RandState.mk d 0)).1 none
        (import_http_client (RandState.mk d 0)).2).1 ∧
    (http_client_init (import_http_client (RandState.mk d 0)).1 none
        (http_client_init (import_http_client (RandState.mk d 0)).1 none
          (import_http_client (RandState.mk d 0)).2).2).1 ≤ 15 ∧
    (http_client_init (import_http_client (RandState.mk d 0)).1 none
        (http_client_init (import_http_client (RandState.mk d 0)).1 none
          (import_http_client (RandState.mk d 0)).2).2).2.next = 1 := by
  exact ⟨rfl, rfl, h10, h15, rfl⟩

/-- Witness for C10 (amended) at the concrete draw stream. -/
theorem http_client_default_timeout_shared_witness :
    (http_client_init (import_http_client (RandState.mk drawsC10 0)).1 none
        (import_http_client (RandState.mk drawsC10 0)).2).1 = drawsC10 0 ∧
    (http_client_init (import_http_client (RandState.mk drawsC10 0)).1 none
        (http_client_init (import_http_client (RandState.mk drawsC10 0)).1 none
          (import_http_client (RandState.mk drawsC10 0)).2).2).1 = drawsC10 0 ∧
    10 ≤ (http_client_init (import_http_client (RandState.mk drawsC10 0)).1 none
        (import_http_client (RandState.mk drawsC10 0)).2).1 ∧
    (http_client_init (import_http_client (RandState.mk drawsC10 0)).1 none
        (http_client_init (import_http_client (RandState.mk drawsC10 0)).1 none
          (import_http_client (RandState.mk drawsC10 0)).2).2).1 ≤ 15 ∧
    (http_client_init (import_http_client (RandState.mk drawsC10 0)).1 none
        (http_client_init (import_http_client (RandState.mk drawsC10 0)).1 none
          (import_http_client (RandState.mk drawsC10 0)).2).2).2.next = 1 :=
  http_client_default_timeout_shared drawsC10 (by norm_num [drawsC10]) (by norm_num [drawsC10])

/-- Witness for C4 at the bytes of a concrete origin string whose raw
encoding carries one padding character. -/
theorem encode_co_length_invariant_witness :
    (b64encode (strBytes (s2l "https://example.com:443"))).length % 4 = 0 ∧
    (b64encode (strBytes (s2l "https://example.com:443"))).length -
      (rstripEq (b64encode (strBytes (s2l "https://example.com:443")))).length ≤ 2 ∧
    b64encode (strBytes (s2l "https://example.com:443")) =
      rstripEq (b64encode (strBytes (s2l "https://example.com:443"))) ++
        List.replicate ((b64encode (strBytes (s2l "https://example.com:443"))).length -
          (rstripEq (b64encode (strBytes (s2l "https://example.com:443")))).length) padChar ∧
    encode_co (strBytes (s2l "https://example.com:443")) =
      rstripEq (b64encode (strBytes (s2l "https://example.com:443"))) ++
        List.replicate ((b64encode (strBytes (s2l "https://example.com:443"))).length -
          (rstripEq (b64encode (strBytes (s2l "https://example.com:443")))).length) (Char.ofNat 46) ∧
    (encode_co (strBytes (s2l "https://example.com:443"))).length =
      (b64encode (strBytes (s2l "https://example.com:443"))).length :=
  encode_co_length_invariant (strBytes (s2l "https://example.com:443"))
